import Mathlib

/-!
Shallow embedding of the ActGrader client library
(`graderclient/__init__.py`, class `GraderClient`) in Lean 4.

Python dynamic typing is modelled by `PyVal` (the values that can be
passed to the public API: `None`, `str`, `pathlib.Path`, or anything
else); raised exceptions by `PyErr`; the local filesystem by `FS`
(which paths exist, and the bytes read from a file); the HTTP transport
by a function `Request → HttpResponse`.  Each public method becomes a
function returning an `OpOutcome`: the client state after the call, the
list of HTTP requests actually sent, the list of local file writes
performed, and either the raised exception or the returned
`(response, value)` pair.
-/

/-- A Python value handed to the GraderClient API: `None`, a `str`,
a `pathlib.PurePath` (carrying its underlying string), or any value
of another type. -/
inductive PyVal where
  | none
  | str (s : String)
  | pathObj (s : String)
  | other
  deriving DecidableEq, Repr

/-- A raised Python exception, by type and message.  The spec's error
taxonomy maps onto these at each raise site: `InvalidArgument` =
`TypeError` (wrong type) or `ValueError` on an absent value,
`InvalidFormat` = `ValueError` on a malformed value, `NotFound` and
`RemoteNotFound` = `FileNotFoundError`. -/
inductive PyErr where
  | typeError (msg : String)
  | valueError (msg : String)
  | fileNotFoundError (msg : String)
  | warning (msg : String)
  deriving DecidableEq, Repr

/-- The underlying string of a `str` or `Path` value (`os.fspath`);
junk value `""` for the other constructors. -/
def PyVal.asStr : PyVal → String
  | .str s => s
  | .pathObj s => s
  | _ => ""

/-- Whether the value is a Python `str`. -/
def PyVal.isStr : PyVal → Bool
  | .str _ => true
  | _ => false

/-- Whether the value is a `str` or a `pathlib.PurePath`
(`isinstance(path, str) or isinstance(path, pathlib.PurePath)`). -/
def PyVal.isPathLike : PyVal → Bool
  | .str _ => true
  | .pathObj _ => true
  | _ => false

/-- Index of the last occurrence of `c` in the list, `-1` when absent
(Python `str.rfind`). -/
def rfind (c : Char) : List Char → Int
  | [] => -1
  | a :: rest =>
    let r := rfind c rest
    if r ≥ 0 then r + 1 else if a = c then 0 else -1

/-- Python slice `l[a:b]`. -/
def pySlice (l : List Char) (a b : Nat) : List Char :=
  (l.take b).drop a

/-- Python `s[0:n]`. -/
def strTake (s : String) (n : Nat) : String :=
  String.mk (s.data.take n)

/-- Python `s[n:]`. -/
def strDrop (s : String) (n : Nat) : String :=
  String.mk (s.data.drop n)

/-- `posixpath.splitext`: split off the extension at the last dot of the
last path component, treating leading dots of the component as part of
the root (so `.bashrc` has no extension). -/
def splitext (p : String) : String × String :=
  let l := p.data
  let sepIndex := rfind '/' l
  let dotIndex := rfind '.' l
  if dotIndex > sepIndex ∧
      ¬ (pySlice l (sepIndex + 1).toNat dotIndex.toNat).all (· = '.') then
    (String.mk (l.take dotIndex.toNat), String.mk (l.drop dotIndex.toNat))
  else
    (p, "")

/-- `posixpath.dirname`: everything up to the last `/`, with trailing
slashes stripped unless the head is all slashes. -/
def dirname (p : String) : String :=
  let l := p.data
  let i := (rfind '/' l) + 1
  let head := l.take i.toNat
  if head ≠ [] ∧ ¬ head.all (· = '/') then
    String.mk ((head.reverse.dropWhile (· = '/')).reverse)
  else
    String.mk head

/-- `posixpath.join a b` for the two-argument case used by
`join_endpoint`. -/
def osPathJoin (a b : String) : String :=
  if strTake b 1 = "/" then b
  else if a = "" ∨ (strTake (String.mk a.data.reverse) 1 = "/") then a ++ b
  else a ++ "/" ++ b

/-- The local filesystem visible to the client: which paths exist
(`os.path.exists`) and the bytes `open(path, 'rb').read()` returns. -/
structure FS where
  pathExists : String → Bool
  fileContent : String → List UInt8

/-- An outgoing HTTP request as the `requests` library receives it:
method, target URL, form-data fields, multipart file fields
`(field name, filename, bytes)`, and extra headers (the client never
passes any). -/
structure Request where
  method : String
  url : String
  dataFields : List (String × PyVal)
  files : List (String × String × List UInt8)
  headers : List (String × String)
  deriving DecidableEq, Repr

/-- An HTTP response: status code, raw body bytes (`response.content`),
whether the body is a `bytes` object, and the value of
`response.json()['uri']` when the body parses to JSON with that key. -/
structure HttpResponse where
  status_code : Nat
  content : List UInt8
  content_is_bytes : Bool
  json_uri : Option String
  deriving DecidableEq, Repr

/-- The configuration fields of a `GraderClient` instance. -/
structure GraderClientState where
  url : PyVal
  oauth : PyVal
  uri : PyVal
  download_directory : PyVal
  deriving DecidableEq, Repr

instance exceptDecEq {ε α : Type} [DecidableEq ε] [DecidableEq α] :
    DecidableEq (Except ε α) := fun a b =>
  match a, b with
  | .error x, .error y =>
    if h : x = y then .isTrue (by rw [h]) else .isFalse (by intro hc; cases hc; exact h rfl)
  | .error _, .ok _ => .isFalse (by intro hc; cases hc)
  | .ok _, .error _ => .isFalse (by intro hc; cases hc)
  | .ok x, .ok y =>
    if h : x = y then .isTrue (by rw [h]) else .isFalse (by intro hc; cases hc; exact h rfl)

/-- The observable outcome of one public method call: the client state
afterwards, the HTTP requests sent (in order), the local file writes
performed (path, bytes), and the raised exception or returned
`(response, derived value)` pair. -/
structure OpOutcome where
  client : GraderClientState
  requests : List Request
  writes : List (String × List UInt8)
  result : Except PyErr (HttpResponse × PyVal)
  deriving DecidableEq, Repr

/-- `GraderClient.validate_url`: `ValueError` on `None`, `TypeError` on a
non-string, `ValueError` unless the string starts with `http://` or
`https://`, else `True`. -/
def validate_url (url : PyVal) : Except PyErr Bool :=
  match url with
  | .none =>
    .error (.valueError "The URL is currently None. Try passing the URL explicitly.")
  | .str s =>
    if strTake s 7 = "http://" ∨ strTake s 8 = "https://" then .ok true
    else
      .error (.valueError
        ("The URL " ++ s ++ " does not appear to have a properly formed http:// or https:// prefix"))
  | _ => .error (.typeError "The URL must be a string.")

/-- `GraderClient.validate_oauth`: `ValueError` on `None`, `TypeError` on
a non-string, else `True`. -/
def validate_oauth (oauth : PyVal) : Except PyErr Bool :=
  match oauth with
  | .none => .error (.valueError "The OAuth is currently None. Try passing it explicitly.")
  | .str _ => .ok true
  | _ => .error (.typeError "The OAuth must be a string.")

/-- `GraderClient.validate_uri`: `ValueError` on `None`, `TypeError` on a
non-string, else `True` (deliberately no schema check). -/
def validate_uri (uri : PyVal) : Except PyErr Bool :=
  match uri with
  | .none => .error (.valueError "The URI is currently None. Try passing it explicitly.")
  | .str _ => .ok true
  | _ => .error (.typeError "The URI must be a string.")

/-- The accepted image extensions, without the leading dot. -/
def imageExtensions : List String := ["jpg", "jpeg", "png", "tif", "tiff"]

/-- `GraderClient.validate_image_path`: `TypeError` unless the value is a
`str` or `PurePath`; then `FileNotFoundError` when the extension is not
an accepted image extension, else `FileNotFoundError` when the path does
not exist, else `True`.  The extension check comes first. -/
def validate_image_path (fs : FS) (path : PyVal) : Except PyErr Bool :=
  if ¬ path.isPathLike then
    .error (.typeError "The image path must be a string or posix path.")
  else
    let ext := (splitext path.asStr).2
    if ¬ (strDrop ext 1 ∈ imageExtensions) then
      .error (.fileNotFoundError "The image file must have a jpg, png, or tif extension.")
    else if ¬ fs.pathExists path.asStr then
      .error (.fileNotFoundError
        ("The image file " ++ path.asStr ++ " does not appear to exist."))
    else
      .ok true

/-- `GraderClient.validate_path`: `TypeError` unless the value is a `str`
or `PurePath`; then `FileNotFoundError` when the containing directory
does not exist; then `ValueError` when the extension is empty or differs
from the required one; else `True`. -/
def validate_path (fs : FS) (path : PyVal) (extension : String) : Except PyErr Bool :=
  if ¬ path.isPathLike then
    .error (.typeError ("The path " ++ path.asStr ++ " must be a string or posix path."))
  else
    let directory := dirname path.asStr
    let ext := strDrop (splitext path.asStr).2 1
    if ¬ fs.pathExists directory then
      .error (.fileNotFoundError
        ("The directory " ++ directory ++ " does not appear to exist."))
    else if ext = "" ∨ ¬ ext = extension then
      .error (.valueError
        ("To properly receive data, the destination file must have a " ++ extension ++ " extension."))
    else
      .ok true

/-- `GraderClient.join_endpoint`: `os.path.join` of the base URL and the
endpoint when the URL is a string, `TypeError` otherwise.  (The second
`isinstance` check on the endpoint always passes here: every call site
passes a string from the endpoint table.) -/
def join_endpoint (url : PyVal) (endpoint : String) : Except PyErr String :=
  match url with
  | .str s => .ok (osPathJoin s endpoint)
  | _ => .error (.typeError "The URL must be a string.")

/-- The private `__endpoints` table built by the constructor. -/
def endpointTable : List (String × String) :=
  [("upload_image", "api/upload/image"),
   ("process_image", "api/process/image"),
   ("download_marked_answers", "api/download/marked_answers"),
   ("download_confirmation_image", "api/download/confirmation_image"),
   ("update_marked_answers", "api/update/marked_answers")]

/-- `self.__endpoints[name]` (every call site uses a key present in the
table). -/
def getEndpoint (name : String) : String :=
  ((endpointTable.find? (fun p => p.1 == name)).map (fun p => p.2)).getD ""

/-- `GraderClient.__init__`: validates the URL and the OAuth token, then
stores them, with `uri` and `download_directory` set to `None`. -/
def graderClientInit (url oauth : PyVal) : Except PyErr GraderClientState :=
  match validate_url url with
  | .error e => .error e
  | .ok _ =>
    match validate_oauth oauth with
    | .error e => .error e
    | .ok _ => .ok ⟨url, oauth, .none, .none⟩

/-- `open(path, 'rb').read()`: `TypeError` on a non-path value,
`FileNotFoundError` when the file does not exist, else the bytes. -/
def pyOpenRead (fs : FS) (path : PyVal) : Except PyErr (List UInt8) :=
  match path with
  | .str s =>
    if fs.pathExists s then .ok (fs.fileContent s)
    else .error (.fileNotFoundError ("No such file or directory: " ++ s))
  | .pathObj s =>
    if fs.pathExists s then .ok (fs.fileContent s)
    else .error (.fileNotFoundError ("No such file or directory: " ++ s))
  | _ => .error (.typeError "expected str, bytes or os.PathLike object")

/-- The `FileNotFoundError` message `download_marked_answers` raises on
HTTP 500, naming the identifier. -/
def dma500msg (uri : String) : String :=
  "The extracted answers could not be found at the URI " ++ uri ++
    ". Verify that you are using the exact URI returned by GraderClient.process_image()."

/-- The `FileNotFoundError` message `download_confirmation_image` raises
on HTTP 500, naming the identifier. -/
def dci500msg (uri : String) : String :=
  "The confirmation image could not be found at the URI " ++ uri ++
    ". Verify that you are using the exact URI returned by GraderClient.process_image()."

/-- `GraderClient.upload_image`: validate the image path, resolve URL and
OAuth defaults, validate them, join the endpoint, read the file, send one
multipart POST with file field `file` and fixed filename `aOriginal.jpg`,
then on HTTP 200 return the response with `response.json()['uri']`, else
the response with `None`. -/
def upload_image (c : GraderClientState) (fs : FS) (net : Request → HttpResponse)
    (path url oauth : PyVal) : OpOutcome :=
  match validate_image_path fs path with
  | .error e => ⟨c, [], [], .error e⟩
  | .ok _ =>
    let endpoint := getEndpoint "upload_image"
    let url1 := if url = PyVal.none then c.url else url
    let oauth1 := if oauth = PyVal.none then c.oauth else oauth
    match validate_url url1 with
    | .error e => ⟨c, [], [], .error e⟩
    | .ok _ =>
      match validate_oauth oauth1 with
      | .error e => ⟨c, [], [], .error e⟩
      | .ok _ =>
        match join_endpoint url1 endpoint with
        | .error e => ⟨c, [], [], .error e⟩
        | .ok u =>
          match pyOpenRead fs path with
          | .error e => ⟨c, [], [], .error e⟩
          | .ok img_data =>
            let req : Request := ⟨"POST", u, [], [("file", "aOriginal.jpg", img_data)], []⟩
            let response := net req
            if response.status_code = 200 then
              match response.json_uri with
              | Option.some v => ⟨c, [req], [], .ok (response, .str v)⟩
              | Option.none =>
                ⟨c, [req], [], .error (.valueError "response.json() could not produce a uri value")⟩
            else
              ⟨c, [req], [], .ok (response, .none)⟩

/-- `GraderClient.process_image`: resolve URL, OAuth and URI defaults,
validate all three, join the endpoint, send one form POST with field
`uri`, then on HTTP 200 return the response with
`response.json()['uri']`, else the response with `None`. -/
def process_image (c : GraderClientState) (net : Request → HttpResponse)
    (uri url oauth : PyVal) : OpOutcome :=
  let endpoint := getEndpoint "process_image"
  let url1 := if url = PyVal.none then c.url else url
  let oauth1 := if oauth = PyVal.none then c.oauth else oauth
  let uri1 := if uri = PyVal.none then c.uri else uri
  match validate_url url1 with
  | .error e => ⟨c, [], [], .error e⟩
  | .ok _ =>
    match validate_oauth oauth1 with
    | .error e => ⟨c, [], [], .error e⟩
    | .ok _ =>
      match validate_uri uri1 with
      | .error e => ⟨c, [], [], .error e⟩
      | .ok _ =>
        match join_endpoint url1 endpoint with
        | .error e => ⟨c, [], [], .error e⟩
        | .ok u =>
          let req : Request := ⟨"POST", u, [("uri", uri1)], [], []⟩
          let response := net req
          if response.status_code = 200 then
            match response.json_uri with
            | Option.some v => ⟨c, [req], [], .ok (response, .str v)⟩
            | Option.none =>
              ⟨c, [req], [], .error (.valueError "response.json() could not produce a uri value")⟩
          else
            ⟨c, [req], [], .ok (response, .none)⟩

/-- `GraderClient.update_marked_answers`: resolve URL, OAuth and URI
defaults, join the endpoint (the only check applied: `join_endpoint`
raises `TypeError` on a non-string URL; no validator is called), read the
file, send one multipart PUT with form field `uri` and file field `file`
with fixed filename `updated_answers.json`, then on HTTP 200 return the
response with `response.json()['uri']`, else the response with `None`. -/
def update_marked_answers (c : GraderClientState) (fs : FS) (net : Request → HttpResponse)
    (path uri url oauth : PyVal) : OpOutcome :=
  let endpoint := getEndpoint "update_marked_answers"
  let url1 := if url = PyVal.none then c.url else url
  let _oauth1 := if oauth = PyVal.none then c.oauth else oauth
  let uri1 := if uri = PyVal.none then c.uri else uri
  match join_endpoint url1 endpoint with
  | .error e => ⟨c, [], [], .error e⟩
  | .ok u =>
    match pyOpenRead fs path with
    | .error e => ⟨c, [], [], .error e⟩
    | .ok json_data =>
      let req : Request := ⟨"PUT", u, [("uri", uri1)], [("file", "updated_answers.json", json_data)], []⟩
      let response := net req
      if response.status_code = 200 then
        match response.json_uri with
        | Option.some v => ⟨c, [req], [], .ok (response, .str v)⟩
        | Option.none =>
          ⟨c, [req], [], .error (.valueError "response.json() could not produce a uri value")⟩
      else
        ⟨c, [req], [], .ok (response, .none)⟩

/-- `GraderClient.download_marked_answers`: resolve defaults, validate
destination path (`json`), URI, URL and OAuth, join the endpoint, send
one form POST with field `uri`; on HTTP 200 with a bytes body write the
body to the destination and return the response with the path (raise a
`Warning` on a non-bytes body); on HTTP 500 raise `FileNotFoundError`
naming the identifier; otherwise return the response with `None`. -/
def download_marked_answers (c : GraderClientState) (fs : FS) (net : Request → HttpResponse)
    (path uri url oauth : PyVal) : OpOutcome :=
  let endpoint := getEndpoint "download_marked_answers"
  let url1 := if url = PyVal.none then c.url else url
  let oauth1 := if oauth = PyVal.none then c.oauth else oauth
  let uri1 := if uri = PyVal.none then c.uri else uri
  match validate_path fs path "json" with
  | .error e => ⟨c, [], [], .error e⟩
  | .ok _ =>
    match validate_uri uri1 with
    | .error e => ⟨c, [], [], .error e⟩
    | .ok _ =>
      match validate_url url1 with
      | .error e => ⟨c, [], [], .error e⟩
      | .ok _ =>
        match validate_oauth oauth1 with
        | .error e => ⟨c, [], [], .error e⟩
        | .ok _ =>
          match join_endpoint url1 endpoint with
          | .error e => ⟨c, [], [], .error e⟩
          | .ok u =>
            let req : Request := ⟨"POST", u, [("uri", uri1)], [], []⟩
            let response := net req
            if response.status_code = 200 then
              if response.content_is_bytes then
                ⟨c, [req], [(path.asStr, response.content)], .ok (response, path)⟩
              else
                ⟨c, [req], [], .error (.warning
                  "The http request returned a response, but it does not appear to contain a json file. Examine response.content to determine what was actually returned.")⟩
            else if response.status_code = 500 then
              ⟨c, [req], [], .error (.fileNotFoundError (dma500msg uri1.asStr))⟩
            else
              ⟨c, [req], [], .ok (response, .none)⟩

/-- `GraderClient.download_confirmation_image`: same shape as
`download_marked_answers` with required extension `jpg`, validator order
path, URI, OAuth, URL, and its own messages. -/
def download_confirmation_image (c : GraderClientState) (fs : FS) (net : Request → HttpResponse)
    (path uri url oauth : PyVal) : OpOutcome :=
  let endpoint := getEndpoint "download_confirmation_image"
  let url1 := if url = PyVal.none then c.url else url
  let oauth1 := if oauth = PyVal.none then c.oauth else oauth
  let uri1 := if uri = PyVal.none then c.uri else uri
  match validate_path fs path "jpg" with
  | .error e => ⟨c, [], [], .error e⟩
  | .ok _ =>
    match validate_uri uri1 with
    | .error e => ⟨c, [], [], .error e⟩
    | .ok _ =>
      match validate_oauth oauth1 with
      | .error e => ⟨c, [], [], .error e⟩
      | .ok _ =>
        match validate_url url1 with
        | .error e => ⟨c, [], [], .error e⟩
        | .ok _ =>
          match join_endpoint url1 endpoint with
          | .error e => ⟨c, [], [], .error e⟩
          | .ok u =>
            let req : Request := ⟨"POST", u, [("uri", uri1)], [], []⟩
            let response := net req
            if response.status_code = 200 then
              if response.content_is_bytes then
                ⟨c, [req], [(path.asStr, response.content)], .ok (response, path)⟩
              else
                ⟨c, [req], [], .error (.warning
                  "The http request returned a response, but it does not appear to contain an image file. Examine response.content to determine what was actually returned.")⟩
            else if response.status_code = 500 then
              ⟨c, [req], [], .error (.fileNotFoundError (dci500msg uri1.asStr))⟩
            else
              ⟨c, [req], [], .ok (response, .none)⟩

lemma validate_url_ok_str {v : PyVal} (h : validate_url v = .ok true) :
    ∃ s, v = PyVal.str s := by
  cases v with
  | str s => exact ⟨s, rfl⟩
  | none => simp [validate_url] at h
  | pathObj s => simp [validate_url] at h
  | other => simp [validate_url] at h

lemma validate_uri_ok_str {v : PyVal} (h : validate_uri v = .ok true) :
    ∃ s, v = PyVal.str s := by
  cases v with
  | str s => exact ⟨s, rfl⟩
  | none => simp [validate_uri] at h
  | pathObj s => simp [validate_uri] at h
  | other => simp [validate_uri] at h

lemma upload_image_client (c : GraderClientState) (fs : FS) (net : Request → HttpResponse)
    (path url oauth : PyVal) : (upload_image c fs net path url oauth).client = c := by
  unfold upload_image
  dsimp only
  repeat' (first | rfl | split)

lemma process_image_client (c : GraderClientState) (net : Request → HttpResponse)
    (uri url oauth : PyVal) : (process_image c net uri url oauth).client = c := by
  unfold process_image
  dsimp only
  repeat' (first | rfl | split)

lemma update_marked_answers_client (c : GraderClientState) (fs : FS) (net : Request → HttpResponse)
    (path uri url oauth : PyVal) :
    (update_marked_answers c fs net path uri url oauth).client = c := by
  unfold update_marked_answers
  dsimp only
  repeat' (first | rfl | split)

lemma download_marked_answers_client (c : GraderClientState) (fs : FS) (net : Request → HttpResponse)
    (path uri url oauth : PyVal) :
    (download_marked_answers c fs net path uri url oauth).client = c := by
  unfold download_marked_answers
  dsimp only
  repeat' (first | rfl | split)

lemma download_confirmation_image_client (c : GraderClientState) (fs : FS) (net : Request → HttpResponse)
    (path uri url oauth : PyVal) :
    (download_confirmation_image c fs net path uri url oauth).client = c := by
  unfold download_confirmation_image
  dsimp only
  repeat' (first | rfl | split)

lemma upload_image_oauth_eq (c : GraderClientState) (fs : FS) (net : Request → HttpResponse)
    (path url : PyVal) (s1 s2 : String) :
    upload_image c fs net path url (PyVal.str s1) = upload_image c fs net path url (PyVal.str s2) := by
  unfold upload_image
  simp [validate_oauth]

lemma process_image_oauth_eq (c : GraderClientState) (net : Request → HttpResponse)
    (uri url : PyVal) (s1 s2 : String) :
    process_image c net uri url (PyVal.str s1) = process_image c net uri url (PyVal.str s2) := by
  unfold process_image
  simp [validate_oauth]

lemma update_marked_answers_oauth_eq (c : GraderClientState) (fs : FS) (net : Request → HttpResponse)
    (path uri url : PyVal) (s1 s2 : String) :
    update_marked_answers c fs net path uri url (PyVal.str s1) =
      update_marked_answers c fs net path uri url (PyVal.str s2) := rfl

lemma download_marked_answers_oauth_eq (c : GraderClientState) (fs : FS) (net : Request → HttpResponse)
    (path uri url : PyVal) (s1 s2 : String) :
    download_marked_answers c fs net path uri url (PyVal.str s1) =
      download_marked_answers c fs net path uri url (PyVal.str s2) := by
  unfold download_marked_answers
  simp [validate_oauth]

lemma download_confirmation_image_oauth_eq (c : GraderClientState) (fs : FS) (net : Request → HttpResponse)
    (path uri url : PyVal) (s1 s2 : String) :
    download_confirmation_image c fs net path uri url (PyVal.str s1) =
      download_confirmation_image c fs net path uri url (PyVal.str s2) := by
  unfold download_confirmation_image
  simp [validate_oauth]

lemma upload_image_headers (c : GraderClientState) (fs : FS) (net : Request → HttpResponse)
    (path url oauth : PyVal) :
    ((upload_image c fs net path url oauth).requests.map Request.headers).all (· == []) = true := by
  unfold upload_image
  dsimp only
  repeat' (first | rfl | split)

lemma process_image_headers (c : GraderClientState) (net : Request → HttpResponse)
    (uri url oauth : PyVal) :
    ((process_image c net uri url oauth).requests.map Request.headers).all (· == []) = true := by
  unfold process_image
  dsimp only
  repeat' (first | rfl | split)

lemma update_marked_answers_headers (c : GraderClientState) (fs : FS) (net : Request → HttpResponse)
    (path uri url oauth : PyVal) :
    ((update_marked_answers c fs net path uri url oauth).requests.map Request.headers).all (· == []) = true := by
  unfold update_marked_answers
  dsimp only
  repeat' (first | rfl | split)

lemma download_marked_answers_headers (c : GraderClientState) (fs : FS) (net : Request → HttpResponse)
    (path uri url oauth : PyVal) :
    ((download_marked_answers c fs net path uri url oauth).requests.map Request.headers).all (· == []) = true := by
  unfold download_marked_answers
  dsimp only
  repeat' (first | rfl | split)

lemma download_confirmation_image_headers (c : GraderClientState) (fs : FS) (net : Request → HttpResponse)
    (path uri url oauth : PyVal) :
    ((download_confirmation_image c fs net path uri url oauth).requests.map Request.headers).all (· == []) = true := by
  unfold download_confirmation_image
  dsimp only
  repeat' (first | rfl | split)

/-- C2: For any two runs of the same operation that differ only in the
(valid string) credential token, the observable outcome — in particular
the outgoing HTTP requests — is identical, and no request of any
operation carries any header (so no authentication header): the
credential is validated but never transmitted. -/
theorem C2_credential_never_transmitted (c : GraderClientState) (fs : FS)
    (net : Request → HttpResponse) (path uri url oauth : PyVal) (s1 s2 : String) :
    (upload_image c fs net path url (PyVal.str s1) =
        upload_image c fs net path url (PyVal.str s2) ∧
      ((upload_image c fs net path url oauth).requests.map Request.headers).all (· == []) = true) ∧
    (process_image c net uri url (PyVal.str s1) =
        process_image c net uri url (PyVal.str s2) ∧
      ((process_image c net uri url oauth).requests.map Request.headers).all (· == []) = true) ∧
    (update_marked_answers c fs net path uri url (PyVal.str s1) =
        update_marked_answers c fs net path uri url (PyVal.str s2) ∧
      ((update_marked_answers c fs net path uri url oauth).requests.map Request.headers).all (· == []) = true) ∧
    (download_marked_answers c fs net path uri url (PyVal.str s1) =
        download_marked_answers c fs net path uri url (PyVal.str s2) ∧
      ((download_marked_answers c fs net path uri url oauth).requests.map Request.headers).all (· == []) = true) ∧
    (download_confirmation_image c fs net path uri url (PyVal.str s1) =
        download_confirmation_image c fs net path uri url (PyVal.str s2) ∧
      ((download_confirmation_image c fs net path uri url oauth).requests.map Request.headers).all (· == []) = true) :=
  ⟨⟨upload_image_oauth_eq c fs net path url s1 s2, upload_image_headers c fs net path url oauth⟩,
   ⟨process_image_oauth_eq c net uri url s1 s2, process_image_headers c net uri url oauth⟩,
   ⟨update_marked_answers_oauth_eq c fs net path uri url s1 s2,
    update_marked_answers_headers c fs net path uri url oauth⟩,
   ⟨download_marked_answers_oauth_eq c fs net path uri url s1 s2,
    download_marked_answers_headers c fs net path uri url oauth⟩,
   ⟨download_confirmation_image_oauth_eq c fs net path uri url s1 s2,
    download_confirmation_image_headers c fs net path uri url oauth⟩⟩

/-- C9: No operation mutates any client configuration field: each of the
five operations returns the client state it was given, unchanged — in
particular an identifier returned by the server is never auto-stored
into the uri field (the endpoint table is a global constant in this
embedding and immutable by construction). -/
theorem C9_operations_preserve_client (c : GraderClientState) (fs : FS)
    (net : Request → HttpResponse) (path uri url oauth : PyVal) :
    (upload_image c fs net path url oauth).client = c ∧
    (process_image c net uri url oauth).client = c ∧
    (update_marked_answers c fs net path uri url oauth).client = c ∧
    (download_marked_answers c fs net path uri url oauth).client = c ∧
    (download_confirmation_image c fs net path uri url oauth).client = c :=
  ⟨upload_image_client c fs net path url oauth,
   process_image_client c net uri url oauth,
   update_marked_answers_client c fs net path uri url oauth,
   download_marked_answers_client c fs net path uri url oauth,
   download_confirmation_image_client c fs net path uri url oauth⟩

/-- C1 (counterexample): with a format-invalid URL override
(`ftp://bad`, rejected by the URL validator) and a non-string credential
override (rejected by the credential validator),
`update_marked_answers` raises nothing, sends one HTTP request, and
returns the response with `None` — refuting the claim that the
effective URL and credential are validated before any network I/O in
this operation. -/
theorem C1_counterexample :
    validate_url (PyVal.str "ftp://bad") =
      Except.error (PyErr.valueError
        "The URL ftp://bad does not appear to have a properly formed http:// or https:// prefix") ∧
    validate_oauth PyVal.other = Except.error (PyErr.typeError "The OAuth must be a string.") ∧
    (update_marked_answers ⟨PyVal.str "https://good.com", PyVal.str "tok", PyVal.none, PyVal.none⟩
        ⟨fun s => s == "/tmp/a.json", fun _ => [123]⟩
        (fun _ => ⟨404, [], true, Option.none⟩)
        (PyVal.str "/tmp/a.json") (PyVal.str "id") (PyVal.str "ftp://bad") PyVal.other).requests =
      [⟨"PUT", "ftp://bad/api/update/marked_answers", [("uri", PyVal.str "id")],
        [("file", "updated_answers.json", [123])], []⟩] ∧
    (update_marked_answers ⟨PyVal.str "https://good.com", PyVal.str "tok", PyVal.none, PyVal.none⟩
        ⟨fun s => s == "/tmp/a.json", fun _ => [123]⟩
        (fun _ => ⟨404, [], true, Option.none⟩)
        (PyVal.str "/tmp/a.json") (PyVal.str "id") (PyVal.str "ftp://bad") PyVal.other).result =
      Except.ok (⟨404, [], true, Option.none⟩, PyVal.none) := by
  decide

/-- C1 (amended): `update_marked_answers` never calls the URL or
credential validators; the only pre-network check on them is
`join_endpoint`'s type check: when the effective URL is not a string it
raises `TypeError` and sends no request and performs no write, while a
malformed string URL and an arbitrary credential are accepted and the
request is sent. -/
theorem C1_update_no_url_credential_validation (c : GraderClientState) (fs : FS)
    (net : Request → HttpResponse) (path uri url oauth : PyVal)
    (h : (if url = PyVal.none then c.url else url).isStr = false) :
    (update_marked_answers c fs net path uri url oauth).result =
      Except.error (PyErr.typeError "The URL must be a string.") ∧
    (update_marked_answers c fs net path uri url oauth).requests = [] ∧
    (update_marked_answers c fs net path uri url oauth).writes = [] := by
  unfold update_marked_answers
  dsimp only
  cases hu : (if url = PyVal.none then c.url else url) with
  | str s => rw [hu] at h; simp [PyVal.isStr] at h
  | none => simp [join_endpoint]
  | pathObj s => simp [join_endpoint]
  | other => simp [join_endpoint]

/-- Witness for the amended C1: a concrete call with a valid client but a
non-string URL override raises `TypeError` with no request and no
write. -/
theorem C1_update_no_url_credential_validation_witness :
    (update_marked_answers ⟨PyVal.str "https://good.com", PyVal.str "tok", PyVal.none, PyVal.none⟩
        ⟨fun s => s == "/tmp/a.json", fun _ => [123]⟩
        (fun _ => ⟨404, [], true, Option.none⟩)
        (PyVal.str "/tmp/a.json") (PyVal.str "id") PyVal.other (PyVal.str "tok")).result =
      Except.error (PyErr.typeError "The URL must be a string.") ∧
    (update_marked_answers ⟨PyVal.str "https://good.com", PyVal.str "tok", PyVal.none, PyVal.none⟩
        ⟨fun s => s == "/tmp/a.json", fun _ => [123]⟩
        (fun _ => ⟨404, [], true, Option.none⟩)
        (PyVal.str "/tmp/a.json") (PyVal.str "id") PyVal.other (PyVal.str "tok")).requests = [] ∧
    (update_marked_answers ⟨PyVal.str "https://good.com", PyVal.str "tok", PyVal.none, PyVal.none⟩
        ⟨fun s => s == "/tmp/a.json", fun _ => [123]⟩
        (fun _ => ⟨404, [], true, Option.none⟩)
        (PyVal.str "/tmp/a.json") (PyVal.str "id") PyVal.other (PyVal.str "tok")).writes = [] :=
  C1_update_no_url_credential_validation _ _ _ _ _ _ _ (by decide)

/-- C10: a client built by the constructor has `uri = None`, so calling
`process_image`, `download_marked_answers` or
`download_confirmation_image` without an explicit identifier fails with
the identifier validator's absent-value error (`ValueError`, the spec's
`InvalidArgument`) before any HTTP request is made (for the download
operations, provided the destination path validates, since that check
runs first). -/
theorem C10_fresh_client_uri_none (url oauth : PyVal) (c : GraderClientState) (fs : FS)
    (net : Request → HttpResponse) (pj pc : PyVal)
    (hinit : graderClientInit url oauth = Except.ok c) :
    c.uri = PyVal.none ∧
    ((process_image c net PyVal.none PyVal.none PyVal.none).result =
        Except.error (PyErr.valueError "The URI is currently None. Try passing it explicitly.") ∧
      (process_image c net PyVal.none PyVal.none PyVal.none).requests = []) ∧
    (validate_path fs pj "json" = Except.ok true →
      (download_marked_answers c fs net pj PyVal.none PyVal.none PyVal.none).result =
          Except.error (PyErr.valueError "The URI is currently None. Try passing it explicitly.") ∧
        (download_marked_answers c fs net pj PyVal.none PyVal.none PyVal.none).requests = []) ∧
    (validate_path fs pc "jpg" = Except.ok true →
      (download_confirmation_image c fs net pc PyVal.none PyVal.none PyVal.none).result =
          Except.error (PyErr.valueError "The URI is currently None. Try passing it explicitly.") ∧
        (download_confirmation_image c fs net pc PyVal.none PyVal.none PyVal.none).requests = []) := by
  unfold graderClientInit at hinit
  cases hvu : validate_url url with
  | error e => rw [hvu] at hinit; simp at hinit
  | ok b =>
    rw [hvu] at hinit
    cases hvo : validate_oauth oauth with
    | error e => rw [hvo] at hinit; simp at hinit
    | ok b2 =>
      rw [hvo] at hinit
      obtain rfl : c = ⟨url, oauth, PyVal.none, PyVal.none⟩ := by
        cases hinit
        rfl
      refine ⟨rfl, ?_, ?_, ?_⟩
      · simp [process_image, hvu, hvo, validate_uri]
      · intro hpj
        simp [download_marked_answers, hpj, validate_uri]
      · intro hpc
        simp [download_confirmation_image, hpc, validate_uri]

/-- Witness for C10 at a concretely constructed client. -/
theorem C10_fresh_client_uri_none_witness :
    (⟨PyVal.str "https://x.com", PyVal.str "tok", PyVal.none, PyVal.none⟩ : GraderClientState).uri = PyVal.none ∧
    ((process_image ⟨PyVal.str "https://x.com", PyVal.str "tok", PyVal.none, PyVal.none⟩
          (fun _ => ⟨404, [], true, Option.none⟩) PyVal.none PyVal.none PyVal.none).result =
        Except.error (PyErr.valueError "The URI is currently None. Try passing it explicitly.") ∧
      (process_image ⟨PyVal.str "https://x.com", PyVal.str "tok", PyVal.none, PyVal.none⟩
          (fun _ => ⟨404, [], true, Option.none⟩) PyVal.none PyVal.none PyVal.none).requests = []) ∧
    (validate_path ⟨fun s => s == "/tmp", fun _ => []⟩ (PyVal.str "/tmp/a.json") "json" = Except.ok true →
      (download_marked_answers ⟨PyVal.str "https://x.com", PyVal.str "tok", PyVal.none, PyVal.none⟩
            ⟨fun s => s == "/tmp", fun _ => []⟩ (fun _ => ⟨404, [], true, Option.none⟩)
            (PyVal.str "/tmp/a.json") PyVal.none PyVal.none PyVal.none).result =
          Except.error (PyErr.valueError "The URI is currently None. Try passing it explicitly.") ∧
        (download_marked_answers ⟨PyVal.str "https://x.com", PyVal.str "tok", PyVal.none, PyVal.none⟩
            ⟨fun s => s == "/tmp", fun _ => []⟩ (fun _ => ⟨404, [], true, Option.none⟩)
            (PyVal.str "/tmp/a.json") PyVal.none PyVal.none PyVal.none).requests = []) ∧
    (validate_path ⟨fun s => s == "/tmp", fun _ => []⟩ (PyVal.str "/tmp/a.jpg") "jpg" = Except.ok true →
      (download_confirmation_image ⟨PyVal.str "https://x.com", PyVal.str "tok", PyVal.none, PyVal.none⟩
            ⟨fun s => s == "/tmp", fun _ => []⟩ (fun _ => ⟨404, [], true, Option.none⟩)
            (PyVal.str "/tmp/a.jpg") PyVal.none PyVal.none PyVal.none).result =
          Except.error (PyErr.valueError "The URI is currently None. Try passing it explicitly.") ∧
        (download_confirmation_image ⟨PyVal.str "https://x.com", PyVal.str "tok", PyVal.none, PyVal.none⟩
            ⟨fun s => s == "/tmp", fun _ => []⟩ (fun _ => ⟨404, [], true, Option.none⟩)
            (PyVal.str "/tmp/a.jpg") PyVal.none PyVal.none PyVal.none).requests = []) :=
  C10_fresh_client_uri_none (PyVal.str "https://x.com") (PyVal.str "tok") _ _ _ _ _ (by decide)

/-- C5: the destination validator succeeds (returns `True`) iff the
containing directory exists and the extension is non-empty and exactly
equals the required one; it fails with `TypeError` (the spec's
`InvalidArgument`) on non-path-like values, `FileNotFoundError`
(`NotFound`) when the directory does not exist, and `ValueError`
(`InvalidFormat`) when the extension is empty or wrong. -/
theorem C5_validate_path_spec (fs : FS) (p : PyVal) (s extReq : String) :
    ((p = PyVal.str s ∨ p = PyVal.pathObj s) →
      ((validate_path fs p extReq = Except.ok true ↔
          fs.pathExists (dirname s) = true ∧
          strDrop (splitext s).2 1 ≠ "" ∧
          strDrop (splitext s).2 1 = extReq) ∧
        (fs.pathExists (dirname s) = false →
          validate_path fs p extReq =
            Except.error (PyErr.fileNotFoundError
              ("The directory " ++ dirname s ++ " does not appear to exist."))) ∧
        (fs.pathExists (dirname s) = true →
          (strDrop (splitext s).2 1 = "" ∨ strDrop (splitext s).2 1 ≠ extReq) →
          validate_path fs p extReq =
            Except.error (PyErr.valueError
              ("To properly receive data, the destination file must have a " ++ extReq ++ " extension."))))) ∧
    (p.isPathLike = false →
      validate_path fs p extReq =
        Except.error (PyErr.typeError ("The path " ++ p.asStr ++ " must be a string or posix path."))) := by
  constructor
  · rintro (rfl | rfl) <;>
      simp only [validate_path, PyVal.isPathLike, PyVal.asStr] <;>
      split_ifs with h1 h2 <;>
      simp_all <;>
      aesop
  · intro h
    cases p <;> simp_all [validate_path, PyVal.isPathLike, PyVal.asStr]

/-- Witness for C5: with only `/tmp` existing, `/tmp/a.json` validates
for extension `json`, and `/tmp/a.txt` fails with the wrong-extension
`ValueError`. -/
theorem C5_validate_path_spec_witness :
    validate_path ⟨fun s => s == "/tmp", fun _ => []⟩ (PyVal.str "/tmp/a.json") "json" =
      Except.ok true ∧
    validate_path ⟨fun s => s == "/tmp", fun _ => []⟩ (PyVal.str "/tmp/a.txt") "json" =
      Except.error (PyErr.valueError
        "To properly receive data, the destination file must have a json extension.") :=
  ⟨(((C5_validate_path_spec ⟨fun s => s == "/tmp", fun _ => []⟩ (PyVal.str "/tmp/a.json")
      "/tmp/a.json" "json").1 (Or.inl rfl)).1).mpr (by decide),
   ((C5_validate_path_spec ⟨fun s => s == "/tmp", fun _ => []⟩ (PyVal.str "/tmp/a.txt")
      "/tmp/a.txt" "json").1 (Or.inl rfl)).2.2 (by decide) (by decide)⟩

/-- C6: for every path whose extension is not exactly (case-sensitively,
without the leading dot) one of jpg, jpeg, png, tif, tiff, the
image-path validator fails with `FileNotFoundError` and the extension
error message, for every filesystem — so regardless of whether the file
exists, and before the existence check can matter. -/
theorem C6_image_ext_check_before_existence (fs : FS) (p : PyVal) (s : String)
    (hp : p = PyVal.str s ∨ p = PyVal.pathObj s)
    (hext : strDrop (splitext s).2 1 ∉ imageExtensions) :
    validate_image_path fs p =
      Except.error (PyErr.fileNotFoundError "The image file must have a jpg, png, or tif extension.") := by
  rcases hp with rfl | rfl <;>
    simp [validate_image_path, PyVal.isPathLike, PyVal.asStr, hext]

/-- Witness for C6: `/tmp/photo.JPG` exists on the filesystem, yet the
uppercase extension is rejected with the extension error. -/
theorem C6_image_ext_check_before_existence_witness :
    validate_image_path ⟨fun _ => true, fun _ => []⟩ (PyVal.str "/tmp/photo.JPG") =
      Except.error (PyErr.fileNotFoundError "The image file must have a jpg, png, or tif extension.") :=
  C6_image_ext_check_before_existence ⟨fun _ => true, fun _ => []⟩ _ "/tmp/photo.JPG"
    (Or.inl rfl) (by decide)

/-- C3: on a transport answering HTTP 500, each download operation (with
all its validators passing, so the request is actually made) raises the
`FileNotFoundError` that names the effective identifier (the spec's
`RemoteNotFound`) and writes nothing to the destination. -/
theorem C3_download_500_remote_not_found (c : GraderClientState) (fs : FS) (resp : HttpResponse)
    (pj pc uri url oauth : PyVal) (u : String)
    (hvj : validate_path fs pj "json" = Except.ok true)
    (hvc : validate_path fs pc "jpg" = Except.ok true)
    (huri : (if uri = PyVal.none then c.uri else uri) = PyVal.str u)
    (hurl : validate_url (if url = PyVal.none then c.url else url) = Except.ok true)
    (hoauth : validate_oauth (if oauth = PyVal.none then c.oauth else oauth) = Except.ok true)
    (h500 : resp.status_code = 500) :
    ((download_marked_answers c fs (fun _ => resp) pj uri url oauth).result =
        Except.error (PyErr.fileNotFoundError (dma500msg u)) ∧
      (download_marked_answers c fs (fun _ => resp) pj uri url oauth).writes = []) ∧
    ((download_confirmation_image c fs (fun _ => resp) pc uri url oauth).result =
        Except.error (PyErr.fileNotFoundError (dci500msg u)) ∧
      (download_confirmation_image c fs (fun _ => resp) pc uri url oauth).writes = []) := by
  obtain ⟨su, hsu⟩ := validate_url_ok_str hurl
  rw [hsu] at hurl
  refine ⟨⟨?_, ?_⟩, ⟨?_, ?_⟩⟩ <;>
    simp [download_marked_answers, download_confirmation_image, hvj, hvc, huri, hsu, hurl,
      hoauth, validate_uri, join_endpoint, h500, PyVal.asStr]

/-- Witness for C3 at a concrete client, filesystem and 500 response. -/
theorem C3_download_500_remote_not_found_witness :
    ((download_marked_answers ⟨PyVal.str "https://x.com", PyVal.str "tok", PyVal.none, PyVal.none⟩
          ⟨fun s => s == "/tmp", fun _ => []⟩ (fun _ => ⟨500, [], true, Option.none⟩)
          (PyVal.str "/tmp/a.json") (PyVal.str "abc") PyVal.none PyVal.none).result =
        Except.error (PyErr.fileNotFoundError (dma500msg "abc")) ∧
      (download_marked_answers ⟨PyVal.str "https://x.com", PyVal.str "tok", PyVal.none, PyVal.none⟩
          ⟨fun s => s == "/tmp", fun _ => []⟩ (fun _ => ⟨500, [], true, Option.none⟩)
          (PyVal.str "/tmp/a.json") (PyVal.str "abc") PyVal.none PyVal.none).writes = []) ∧
    ((download_confirmation_image ⟨PyVal.str "https://x.com", PyVal.str "tok", PyVal.none, PyVal.none⟩
          ⟨fun s => s == "/tmp", fun _ => []⟩ (fun _ => ⟨500, [], true, Option.none⟩)
          (PyVal.str "/tmp/a.jpg") (PyVal.str "abc") PyVal.none PyVal.none).result =
        Except.error (PyErr.fileNotFoundError (dci500msg "abc")) ∧
      (download_confirmation_image ⟨PyVal.str "https://x.com", PyVal.str "tok", PyVal.none, PyVal.none⟩
          ⟨fun s => s == "/tmp", fun _ => []⟩ (fun _ => ⟨500, [], true, Option.none⟩)
          (PyVal.str "/tmp/a.jpg") (PyVal.str "abc") PyVal.none PyVal.none).writes = []) :=
  C3_download_500_remote_not_found _ _ _ _ _ _ _ _ "abc"
    (by decide) (by decide) (by decide) (by decide) (by decide) (by decide)

lemma soft_fail_upload (c : GraderClientState) (fs : FS) (resp : HttpResponse)
    (path url oauth : PyVal) (h200 : resp.status_code ≠ 200) :
    ((upload_image c fs (fun _ => resp) path url oauth).requests ≠ [] →
      (upload_image c fs (fun _ => resp) path url oauth).result = Except.ok (resp, PyVal.none)) ∧
    (upload_image c fs (fun _ => resp) path url oauth).writes = [] := by
  unfold upload_image
  dsimp only
  repeat' split
  all_goals simp_all

lemma soft_fail_process (c : GraderClientState) (resp : HttpResponse)
    (uri url oauth : PyVal) (h200 : resp.status_code ≠ 200) :
    ((process_image c (fun _ => resp) uri url oauth).requests ≠ [] →
      (process_image c (fun _ => resp) uri url oauth).result = Except.ok (resp, PyVal.none)) ∧
    (process_image c (fun _ => resp) uri url oauth).writes = [] := by
  unfold process_image
  dsimp only
  repeat' split
  all_goals simp_all

lemma soft_fail_update (c : GraderClientState) (fs : FS) (resp : HttpResponse)
    (path uri url oauth : PyVal) (h200 : resp.status_code ≠ 200) :
    ((update_marked_answers c fs (fun _ => resp) path uri url oauth).requests ≠ [] →
      (update_marked_answers c fs (fun _ => resp) path uri url oauth).result = Except.ok (resp, PyVal.none)) ∧
    (update_marked_answers c fs (fun _ => resp) path uri url oauth).writes = [] := by
  unfold update_marked_answers
  dsimp only
  repeat' split
  all_goals simp_all

lemma soft_fail_dma (c : GraderClientState) (fs : FS) (resp : HttpResponse)
    (path uri url oauth : PyVal) (h200 : resp.status_code ≠ 200) (h500 : resp.status_code ≠ 500) :
    ((download_marked_answers c fs (fun _ => resp) path uri url oauth).requests ≠ [] →
      (download_marked_answers c fs (fun _ => resp) path uri url oauth).result = Except.ok (resp, PyVal.none)) ∧
    (download_marked_answers c fs (fun _ => resp) path uri url oauth).writes = [] := by
  unfold download_marked_answers
  dsimp only
  repeat' split
  all_goals simp_all

lemma soft_fail_dci (c : GraderClientState) (fs : FS) (resp : HttpResponse)
    (path uri url oauth : PyVal) (h200 : resp.status_code ≠ 200) (h500 : resp.status_code ≠ 500) :
    ((download_confirmation_image c fs (fun _ => resp) path uri url oauth).requests ≠ [] →
      (download_confirmation_image c fs (fun _ => resp) path uri url oauth).result = Except.ok (resp, PyVal.none)) ∧
    (download_confirmation_image c fs (fun _ => resp) path uri url oauth).writes = [] := by
  unfold download_confirmation_image
  dsimp only
  repeat' split
  all_goals simp_all

/-- C4: on a transport whose response status is neither 200 nor 500,
every operation that reaches the network (its request list is
non-empty) raises no exception and returns the response paired with
`None`, and no operation writes any file. -/
theorem C4_soft_fail_non200_non500 (c : GraderClientState) (fs : FS) (resp : HttpResponse)
    (path uri url oauth : PyVal)
    (h200 : resp.status_code ≠ 200) (h500 : resp.status_code ≠ 500) :
    (((upload_image c fs (fun _ => resp) path url oauth).requests ≠ [] →
        (upload_image c fs (fun _ => resp) path url oauth).result = Except.ok (resp, PyVal.none)) ∧
      (upload_image c fs (fun _ => resp) path url oauth).writes = []) ∧
    (((process_image c (fun _ => resp) uri url oauth).requests ≠ [] →
        (process_image c (fun _ => resp) uri url oauth).result = Except.ok (resp, PyVal.none)) ∧
      (process_image c (fun _ => resp) uri url oauth).writes = []) ∧
    (((update_marked_answers c fs (fun _ => resp) path uri url oauth).requests ≠ [] →
        (update_marked_answers c fs (fun _ => resp) path uri url oauth).result = Except.ok (resp, PyVal.none)) ∧
      (update_marked_answers c fs (fun _ => resp) path uri url oauth).writes = []) ∧
    (((download_marked_answers c fs (fun _ => resp) path uri url oauth).requests ≠ [] →
        (download_marked_answers c fs (fun _ => resp) path uri url oauth).result = Except.ok (resp, PyVal.none)) ∧
      (download_marked_answers c fs (fun _ => resp) path uri url oauth).writes = []) ∧
    (((download_confirmation_image c fs (fun _ => resp) path uri url oauth).requests ≠ [] →
        (download_confirmation_image c fs (fun _ => resp) path uri url oauth).result = Except.ok (resp, PyVal.none)) ∧
      (download_confirmation_image c fs (fun _ => resp) path uri url oauth).writes = []) :=
  ⟨soft_fail_upload c fs resp path url oauth h200,
   soft_fail_process c resp uri url oauth h200,
   soft_fail_update c fs resp path uri url oauth h200,
   soft_fail_dma c fs resp path uri url oauth h200 h500,
   soft_fail_dci c fs resp path uri url oauth h200 h500⟩

/-- Witness for C4 at a concrete 404 response: upload, process, update
and the confirmation-image download all reach the network and return
`(response, None)` without an exception; no operation writes a file. -/
theorem C4_soft_fail_non200_non500_witness :
    (((upload_image ⟨PyVal.str "https://x.com", PyVal.str "tok", PyVal.none, PyVal.none⟩
          ⟨fun s => s == "/tmp" || s == "/tmp/a.jpg", fun _ => [7]⟩
          (fun _ => ⟨404, [], true, Option.none⟩)
          (PyVal.str "/tmp/a.jpg") PyVal.none PyVal.none).requests ≠ [] →
        (upload_image ⟨PyVal.str "https://x.com", PyVal.str "tok", PyVal.none, PyVal.none⟩
          ⟨fun s => s == "/tmp" || s == "/tmp/a.jpg", fun _ => [7]⟩
          (fun _ => ⟨404, [], true, Option.none⟩)
          (PyVal.str "/tmp/a.jpg") PyVal.none PyVal.none).result =
          Except.ok (⟨404, [], true, Option.none⟩, PyVal.none)) ∧
      (upload_image ⟨PyVal.str "https://x.com", PyVal.str "tok", PyVal.none, PyVal.none⟩
          ⟨fun s => s == "/tmp" || s == "/tmp/a.jpg", fun _ => [7]⟩
          (fun _ => ⟨404, [], true, Option.none⟩)
          (PyVal.str "/tmp/a.jpg") PyVal.none PyVal.none).writes = []) ∧
    (((process_image ⟨PyVal.str "https://x.com", PyVal.str "tok", PyVal.none, PyVal.none⟩
          (fun _ => ⟨404, [], true, Option.none⟩)
          (PyVal.str "abc") PyVal.none PyVal.none).requests ≠ [] →
        (process_image ⟨PyVal.str "https://x.com", PyVal.str "tok", PyVal.none, PyVal.none⟩
          (fun _ => ⟨404, [], true, Option.none⟩)
          (PyVal.str "abc") PyVal.none PyVal.none).result =
          Except.ok (⟨404, [], true, Option.none⟩, PyVal.none)) ∧
      (process_image ⟨PyVal.str "https://x.com", PyVal.str "tok", PyVal.none, PyVal.none⟩
          (fun _ => ⟨404, [], true, Option.none⟩)
          (PyVal.str "abc") PyVal.none PyVal.none).writes = []) ∧
    (((update_marked_answers ⟨PyVal.str "https://x.com", PyVal.str "tok", PyVal.none, PyVal.none⟩
          ⟨fun s => s == "/tmp" || s == "/tmp/a.jpg", fun _ => [7]⟩
          (fun _ => ⟨404, [], true, Option.none⟩)
          (PyVal.str "/tmp/a.jpg") (PyVal.str "abc") PyVal.none PyVal.none).requests ≠ [] →
        (update_marked_answers ⟨PyVal.str "https://x.com", PyVal.str "tok", PyVal.none, PyVal.none⟩
          ⟨fun s => s == "/tmp" || s == "/tmp/a.jpg", fun _ => [7]⟩
          (fun _ => ⟨404, [], true, Option.none⟩)
          (PyVal.str "/tmp/a.jpg") (PyVal.str "abc") PyVal.none PyVal.none).result =
          Except.ok (⟨404, [], true, Option.none⟩, PyVal.none)) ∧
      (update_marked_answers ⟨PyVal.str "https://x.com", PyVal.str "tok", PyVal.none, PyVal.none⟩
          ⟨fun s => s == "/tmp" || s == "/tmp/a.jpg", fun _ => [7]⟩
          (fun _ => ⟨404, [], true, Option.none⟩)
          (PyVal.str "/tmp/a.jpg") (PyVal.str "abc") PyVal.none PyVal.none).writes = []) ∧
    (((download_marked_answers ⟨PyVal.str "https://x.com", PyVal.str "tok", PyVal.none, PyVal.none⟩
          ⟨fun s => s == "/tmp" || s == "/tmp/a.jpg", fun _ => [7]⟩
          (fun _ => ⟨404, [], true, Option.none⟩)
          (PyVal.str "/tmp/a.jpg") (PyVal.str "abc") PyVal.none PyVal.none).requests ≠ [] →
        (download_marked_answers ⟨PyVal.str "https://x.com", PyVal.str "tok", PyVal.none, PyVal.none⟩
          ⟨fun s => s == "/tmp" || s == "/tmp/a.jpg", fun _ => [7]⟩
          (fun _ => ⟨404, [], true, Option.none⟩)
          (PyVal.str "/tmp/a.jpg") (PyVal.str "abc") PyVal.none PyVal.none).result =
          Except.ok (⟨404, [], true, Option.none⟩, PyVal.none)) ∧
      (download_marked_answers ⟨PyVal.str "https://x.com", PyVal.str "tok", PyVal.none, PyVal.none⟩
          ⟨fun s => s == "/tmp" || s == "/tmp/a.jpg", fun _ => [7]⟩
          (fun _ => ⟨404, [], true, Option.none⟩)
          (PyVal.str "/tmp/a.jpg") (PyVal.str "abc") PyVal.none PyVal.none).writes = []) ∧
    (((download_confirmation_image ⟨PyVal.str "https://x.com", PyVal.str "tok", PyVal.none, PyVal.none⟩
          ⟨fun s => s == "/tmp" || s == "/tmp/a.jpg", fun _ => [7]⟩
          (fun _ => ⟨404, [], true, Option.none⟩)
          (PyVal.str "/tmp/a.jpg") (PyVal.str "abc") PyVal.none PyVal.none).requests ≠ [] →
        (download_confirmation_image ⟨PyVal.str "https://x.com", PyVal.str "tok", PyVal.none, PyVal.none⟩
          ⟨fun s => s == "/tmp" || s == "/tmp/a.jpg", fun _ => [7]⟩
          (fun _ => ⟨404, [], true, Option.none⟩)
          (PyVal.str "/tmp/a.jpg") (PyVal.str "abc") PyVal.none PyVal.none).result =
          Except.ok (⟨404, [], true, Option.none⟩, PyVal.none)) ∧
      (download_confirmation_image ⟨PyVal.str "https://x.com", PyVal.str "tok", PyVal.none, PyVal.none⟩
          ⟨fun s => s == "/tmp" || s == "/tmp/a.jpg", fun _ => [7]⟩
          (fun _ => ⟨404, [], true, Option.none⟩)
          (PyVal.str "/tmp/a.jpg") (PyVal.str "abc") PyVal.none PyVal.none).writes = []) :=
  C4_soft_fail_non200_non500 ⟨PyVal.str "https://x.com", PyVal.str "tok", PyVal.none, PyVal.none⟩
    ⟨fun s => s == "/tmp" || s == "/tmp/a.jpg", fun _ => [7]⟩ ⟨404, [], true, Option.none⟩
    (PyVal.str "/tmp/a.jpg") (PyVal.str "abc") PyVal.none PyVal.none (by decide) (by decide)

/-- C7: on a transport answering HTTP 200 with a bytes body, each
download operation (validators passing) performs exactly one write of
the full response body to the destination path and returns the response
paired with the destination path. -/
theorem C7_download_200_writes_body (c : GraderClientState) (fs : FS) (resp : HttpResponse)
    (pj pc uri url oauth : PyVal) (sj sc : String)
    (hpj : pj = PyVal.str sj ∨ pj = PyVal.pathObj sj)
    (hpc : pc = PyVal.str sc ∨ pc = PyVal.pathObj sc)
    (hvj : validate_path fs pj "json" = Except.ok true)
    (hvc : validate_path fs pc "jpg" = Except.ok true)
    (huri : validate_uri (if uri = PyVal.none then c.uri else uri) = Except.ok true)
    (hurl : validate_url (if url = PyVal.none then c.url else url) = Except.ok true)
    (hoauth : validate_oauth (if oauth = PyVal.none then c.oauth else oauth) = Except.ok true)
    (h200 : resp.status_code = 200) (hbytes : resp.content_is_bytes = true) :
    ((download_marked_answers c fs (fun _ => resp) pj uri url oauth).writes =
        [(sj, resp.content)] ∧
      (download_marked_answers c fs (fun _ => resp) pj uri url oauth).result =
        Except.ok (resp, pj)) ∧
    ((download_confirmation_image c fs (fun _ => resp) pc uri url oauth).writes =
        [(sc, resp.content)] ∧
      (download_confirmation_image c fs (fun _ => resp) pc uri url oauth).result =
        Except.ok (resp, pc)) := by
  obtain ⟨su, hsu⟩ := validate_url_ok_str hurl
  rw [hsu] at hurl
  obtain ⟨uu, huu⟩ := validate_uri_ok_str huri
  rcases hpj with rfl | rfl <;> rcases hpc with rfl | rfl <;>
    simp [download_marked_answers, download_confirmation_image, hvj, hvc, huu, hsu, hurl,
      hoauth, validate_uri, join_endpoint, h200, hbytes, PyVal.asStr]

/-- Witness for C7: a 200 response with body bytes 97 98 99 is written
byte-for-byte to the concrete destinations. -/
theorem C7_download_200_writes_body_witness :
    ((download_marked_answers ⟨PyVal.str "https://x.com", PyVal.str "tok", PyVal.none, PyVal.none⟩
          ⟨fun s => s == "/tmp", fun _ => []⟩ (fun _ => ⟨200, [97, 98, 99], true, Option.none⟩)
          (PyVal.str "/tmp/a.json") (PyVal.str "abc") PyVal.none PyVal.none).writes =
        [("/tmp/a.json", [97, 98, 99])] ∧
      (download_marked_answers ⟨PyVal.str "https://x.com", PyVal.str "tok", PyVal.none, PyVal.none⟩
          ⟨fun s => s == "/tmp", fun _ => []⟩ (fun _ => ⟨200, [97, 98, 99], true, Option.none⟩)
          (PyVal.str "/tmp/a.json") (PyVal.str "abc") PyVal.none PyVal.none).result =
        Except.ok (⟨200, [97, 98, 99], true, Option.none⟩, PyVal.str "/tmp/a.json")) ∧
    ((download_confirmation_image ⟨PyVal.str "https://x.com", PyVal.str "tok", PyVal.none, PyVal.none⟩
          ⟨fun s => s == "/tmp", fun _ => []⟩ (fun _ => ⟨200, [97, 98, 99], true, Option.none⟩)
          (PyVal.str "/tmp/a.jpg") (PyVal.str "abc") PyVal.none PyVal.none).writes =
        [("/tmp/a.jpg", [97, 98, 99])] ∧
      (download_confirmation_image ⟨PyVal.str "https://x.com", PyVal.str "tok", PyVal.none, PyVal.none⟩
          ⟨fun s => s == "/tmp", fun _ => []⟩ (fun _ => ⟨200, [97, 98, 99], true, Option.none⟩)
          (PyVal.str "/tmp/a.jpg") (PyVal.str "abc") PyVal.none PyVal.none).result =
        Except.ok (⟨200, [97, 98, 99], true, Option.none⟩, PyVal.str "/tmp/a.jpg")) :=
  C7_download_200_writes_body ⟨PyVal.str "https://x.com", PyVal.str "tok", PyVal.none, PyVal.none⟩
    ⟨fun s => s == "/tmp", fun _ => []⟩ ⟨200, [97, 98, 99], true, Option.none⟩
    (PyVal.str "/tmp/a.json") (PyVal.str "/tmp/a.jpg") (PyVal.str "abc") PyVal.none PyVal.none
    "/tmp/a.json" "/tmp/a.jpg" (Or.inl rfl) (Or.inl rfl)
    (by decide) (by decide) (by decide) (by decide) (by decide) (by decide) (by decide)

lemma process_request_uri_field (c2 : GraderClientState) (net2 : Request → HttpResponse)
    (url2 oauth2 : PyVal) (u : String)
    (hurl2 : validate_url (if url2 = PyVal.none then c2.url else url2) = Except.ok true)
    (hoauth2 : validate_oauth (if oauth2 = PyVal.none then c2.oauth else oauth2) = Except.ok true) :
    (process_image c2 net2 (PyVal.str u) url2 oauth2).requests.map Request.dataFields =
      [[("uri", PyVal.str u)]] := by
  obtain ⟨su, hsu⟩ := validate_url_ok_str hurl2
  rw [hsu] at hurl2
  simp only [process_image, hsu, hurl2, hoauth2, validate_uri, join_endpoint]
  repeat' split
  all_goals simp_all

/-- C8: when `upload_image` returns an identifier (which forces an HTTP
200 response whose JSON `uri` field is exactly that identifier),
immediately calling `process_image` with that identifier (URL and
credential validating) produces exactly one outbound request, and its
`uri` form field equals the identifier returned by the upload. -/
theorem C8_upload_process_roundtrip (c c2 : GraderClientState) (fs : FS)
    (net net2 : Request → HttpResponse) (path url oauth url2 oauth2 : PyVal)
    (resp : HttpResponse) (u : String)
    (hup : (upload_image c fs net path url oauth).result = Except.ok (resp, PyVal.str u))
    (hurl2 : validate_url (if url2 = PyVal.none then c2.url else url2) = Except.ok true)
    (hoauth2 : validate_oauth (if oauth2 = PyVal.none then c2.oauth else oauth2) = Except.ok true) :
    resp.status_code = 200 ∧ resp.json_uri = Option.some u ∧
    (process_image c2 net2 (PyVal.str u) url2 oauth2).requests.map Request.dataFields =
      [[("uri", PyVal.str u)]] := by
  have hkey : resp.status_code = 200 ∧ resp.json_uri = Option.some u := by
    unfold upload_image at hup
    dsimp only at hup
    repeat' split at hup
    all_goals simp_all
  exact ⟨hkey.1, hkey.2, process_request_uri_field c2 net2 url2 oauth2 u hurl2 hoauth2⟩

/-- Witness for C8: a concrete upload that returns identifier `abc123`
followed by a process call with that identifier. -/
theorem C8_upload_process_roundtrip_witness :
    (⟨200, [], true, Option.some "abc123"⟩ : HttpResponse).status_code = 200 ∧
    (⟨200, [], true, Option.some "abc123"⟩ : HttpResponse).json_uri = Option.some "abc123" ∧
    (process_image ⟨PyVal.str "https://x.com", PyVal.str "tok", PyVal.none, PyVal.none⟩
        (fun _ => ⟨404, [], true, Option.none⟩)
        (PyVal.str "abc123") PyVal.none PyVal.none).requests.map Request.dataFields =
      [[("uri", PyVal.str "abc123")]] :=
  C8_upload_process_roundtrip
    ⟨PyVal.str "https://x.com", PyVal.str "tok", PyVal.none, PyVal.none⟩
    ⟨PyVal.str "https://x.com", PyVal.str "tok", PyVal.none, PyVal.none⟩
    ⟨fun s => s == "/tmp/img.jpg", fun _ => [1, 2]⟩
    (fun _ => ⟨200, [], true, Option.some "abc123"⟩)
    (fun _ => ⟨404, [], true, Option.none⟩)
    (PyVal.str "/tmp/img.jpg") PyVal.none PyVal.none PyVal.none PyVal.none
    ⟨200, [], true, Option.some "abc123"⟩ "abc123"
    (by decide) (by decide) (by decide)
